import Mathlib

/-!
Verification of the window wrapper in src/cascadia/WindowsTerminal/BaseWindow.h.

The C++ class BaseWindow<T> is a CRTP wrapper over a native Win32 window.  We
give a shallow embedding: the mutable fields become a `WindowState` record,
OS calls performed by the code become emitted `Event`s or values read from an
`Env` record, and the LRESULT returned by the window procedure is either a
concrete integer or a symbolic call to the default window procedure.  Floating
point arithmetic in the DPI conversion is modelled exactly over the rationals
(the inputs of interest are small integers, so the float computation in the
source is exact on them).
-/

set_option autoImplicit false

namespace BaseWindow

/-! ### Win32 message and parameter constants (from the Windows SDK headers) -/

def WM_NCCREATE : Nat := 0x0081
def WM_DESTROY : Nat := 0x0002
def WM_SIZE : Nat := 0x0005
def WM_DPICHANGED : Nat := 0x02E0
def WM_USER : Nat := 0x0400

/-- `#define CM_UPDATE_TITLE (WM_USER)` -- the custom update-title message. -/
def CM_UPDATE_TITLE : Nat := WM_USER

def SIZE_RESTORED : Nat := 0
def SIZE_MINIMIZED : Nat := 1
def SIZE_MAXIMIZED : Nat := 2

def USER_DEFAULT_SCREEN_DPI : Nat := 96

/-- `SWP_NOZORDER | SWP_NOACTIVATE`, the flags passed to SetWindowPos. -/
def SWP_NOZORDER_NOACTIVATE : Nat := 0x0004 + 0x0010

/-- `LOWORD(l)`: the low 16 bits of `l`. -/
def LOWORD (l : Nat) : Nat := l % 2 ^ 16

/-- `HIWORD(l)`: bits 16..31 of `l`. -/
def HIWORD (l : Nat) : Nat := (l / 2 ^ 16) % 2 ^ 16

/-! ### Data model -/

/-- A Win32 RECT.  WM_DPICHANGED passes a pointer to one in its lParam; the
environment supplies the pointee. -/
structure Rect where
  left : Int
  top : Int
  right : Int
  bottom : Int
  deriving DecidableEq, Repr

/-- The mutable fields of `BaseWindow<T>`.  `window` is the owned HWND
(`wil::unique_hwnd`), `none` when null; the other fields carry their C++
names without the underscore prefix. -/
structure WindowState where
  window : Option Nat
  currentDpi : Nat
  inDpiChange : Bool
  title : String
  minimized : Bool
  deriving DecidableEq, Repr

/-- The member initializers of the C++ class: `_currentDpi = 0`,
`_inDpiChange = false`, `_title = L""`, `_minimized = false`, null handle. -/
def initialState : WindowState :=
  { window := none, currentDpi := 0, inDpiChange := false, title := "", minimized := false }

/-- Values the code reads from the OS during one message dispatch. -/
structure Env where
  /-- Result of `GetDpiForWindow` on the window. -/
  getDpiForWindow : Nat
  /-- Result of `GetWindow(hWnd, GW_CHILD)`: the child window handle, if any. -/
  getWindowChild : Option Nat
  /-- The RECT pointed to by the lParam of a WM_DPICHANGED message. -/
  dpiRect : Rect
  deriving DecidableEq, Repr

/-- Observable calls the code makes: the virtual hooks `OnResize`,
`OnMinimize`, `OnRestore`, and the Win32 functions with side effects. -/
inductive Event where
  | onResize (width height : Nat)
  | onMinimize
  | onRestore
  | postQuitMessage (exitCode : Int)
  | setWindowText (hwnd : Option Nat) (title : String)
  | setWindowPos (hwnd : Option Nat) (x y cx cy : Int) (flags : Nat)
  | postMessage (hwnd : Option Nat) (msg wparam lparam : Nat)
  | enableNonClientDpiScaling (hwnd : Nat)
  deriving DecidableEq, Repr

/-- An LRESULT: either a concrete value, or the (symbolic) result of
`DefWindowProc(hwnd, message, wparam, lparam)`. -/
inductive LRESULT where
  | val (n : Int)
  | defWindowProc (hwnd : Option Nat) (message wparam lparam : Nat)
  deriving DecidableEq, Repr

/-- Result of one dispatch: the updated fields, the calls made in order, and
the returned LRESULT. -/
structure MHResult where
  state : WindowState
  events : List Event
  ret : LRESULT
  deriving DecidableEq, Repr

/-! ### The operations, translated from BaseWindow.h -/

/-- `BaseWindow::HandleDpiChange` (BaseWindow.h lines 105-122): sets
`_inDpiChange`, and if `GetWindow(hWnd, GW_CHILD)` is non-null, repositions
the window to the RECT supplied with the message and caches
`HIWORD(wParam)` as `_currentDpi`; clears `_inDpiChange` and returns 0. -/
def HandleDpiChange (env : Env) (s : WindowState) (hWnd : Option Nat)
    (wParam : Nat) : MHResult :=
  let s1 := { s with inDpiChange := true }
  match env.getWindowChild with
  | some _ =>
    let uDpi := HIWORD wParam
    let r := env.dpiRect
    let evs := [Event.setWindowPos hWnd r.left r.top (r.right - r.left) (r.bottom - r.top)
      SWP_NOZORDER_NOACTIVATE]
    let s2 := { s1 with currentDpi := uDpi }
    { state := { s2 with inDpiChange := false }, events := evs, ret := LRESULT.val 0 }
  | none =>
    { state := { s1 with inDpiChange := false }, events := [], ret := LRESULT.val 0 }

/-- `BaseWindow::MessageHandler` (BaseWindow.h lines 45-102): the switch over
the message.  WM_DPICHANGED and WM_DESTROY return from inside the switch;
WM_SIZE and CM_UPDATE_TITLE break and, like every unrecognized message, fall
through to `DefWindowProc(_window.get(), message, wparam, lparam)`. -/
def MessageHandler (env : Env) (s : WindowState) (message wparam lparam : Nat) : MHResult :=
  if message = WM_DPICHANGED then
    HandleDpiChange env s s.window wparam
  else if message = WM_DESTROY then
    { state := s, events := [Event.postQuitMessage 0], ret := LRESULT.val 0 }
  else
    let fall : WindowState → List Event → MHResult := fun s1 evs =>
      { state := s1, events := evs, ret := LRESULT.defWindowProc s.window message wparam lparam }
    if message = WM_SIZE then
      let width := LOWORD lparam
      let height := HIWORD lparam
      if wparam = SIZE_MAXIMIZED ∨ wparam = SIZE_RESTORED then
        if s.minimized then
          fall { s with minimized := false } [Event.onRestore, Event.onResize width height]
        else
          fall s [Event.onResize width height]
      else if wparam = SIZE_MINIMIZED then
        if ¬ s.minimized then
          fall { s with minimized := true } [Event.onMinimize]
        else
          fall s []
      else
        fall s []
    else if message = CM_UPDATE_TITLE then
      fall s [Event.setWindowText s.window s.title]
    else
      fall s []

/-- The combined state `WndProc` sees: the single `BaseWindow` instance and
whether `SetWindowLongPtr(window, GWLP_USERDATA, that)` has registered it, so
that `GetThisFromHandle` finds it. -/
structure WndState where
  that : WindowState
  registered : Bool
  deriving DecidableEq, Repr

/-- `BaseWindow::WndProc` (BaseWindow.h lines 21-43).  `createParams` models
`cs->lpCreateParams` of a WM_NCCREATE message: `none` when that pointer is
null, `some ()` when it points to the instance.  A `WINRT_ASSERT` failure is
an `Except.error` naming the assertion. -/
def WndProc (env : Env) (st : WndState) (window : Nat) (message wparam lparam : Nat)
    (createParams : Option Unit) : Except String (WndState × List Event × LRESULT) :=
  if window = 0 then
    Except.error "WINRT_ASSERT window"
  else if message = WM_NCCREATE then
    match createParams with
    | none => Except.error "WINRT_ASSERT that"
    | some _ =>
      match st.that.window with
      | some _ => Except.error "WINRT_ASSERT not that window"
      | none =>
        let that1 := { st.that with window := some window }
        let that2 := { that1 with currentDpi := env.getDpiForWindow }
        Except.ok ({ that := that2, registered := true },
          [Event.enableNonClientDpiScaling window],
          LRESULT.defWindowProc (some window) message wparam lparam)
  else if st.registered then
    let r := MessageHandler env st.that message wparam lparam
    Except.ok ({ st with that := r.state }, r.events, r.ret)
  else
    Except.ok (st, [], LRESULT.defWindowProc (some window) message wparam lparam)

/-- `BaseWindow::UpdateTitle` (BaseWindow.h lines 186-190): stores the new
title in `_title` and posts CM_UPDATE_TITLE to the window's message loop. -/
def UpdateTitle (s : WindowState) (newTitle : String) : WindowState × List Event :=
  ({ s with title := newTitle },
   [Event.postMessage s.window CM_UPDATE_TITLE 0 0])

/-- `BaseWindow::GetCurrentDpiScale` (BaseWindow.h lines 140-145): the DPI
reported by `GetDpiForWindow` divided by USER_DEFAULT_SCREEN_DPI, as exact
rational arithmetic in place of the float division. -/
def GetCurrentDpiScale (dpi : Nat) : ℚ :=
  (dpi : ℚ) / (USER_DEFAULT_SCREEN_DPI : ℚ)

/-- A Win32 SIZE: a physical size in pixels. -/
structure SIZE where
  cx : Int
  cy : Int
  deriving DecidableEq, Repr

/-- A `winrt::Windows::Foundation::Size`: two float dimensions, modelled as
exact rationals. -/
structure FoundationSize where
  width : ℚ
  height : ℚ
  deriving DecidableEq, Repr

/-- `BaseWindow::GetLogicalSize` (BaseWindow.h lines 166-173): each dimension
is `physical / scale + 0.5f`, with the float arithmetic modelled exactly over
the rationals.  `dpi` is the value `GetDpiForWindow` returns inside
`GetCurrentDpiScale`. -/
def GetLogicalSize (dpi : Nat) (physicalSize : SIZE) : FoundationSize :=
  let scale := GetCurrentDpiScale dpi
  { width := (physicalSize.cx : ℚ) / scale + 1 / 2
    height := (physicalSize.cy : ℚ) / scale + 1 / 2 }

/-! ### Trace machinery for the minimize/restore invariant -/

/-- Dispatch a sequence of (message, wparam, lparam) triples through
`MessageHandler`, threading the state and concatenating the emitted events. -/
def runMessages (env : Env) (s : WindowState) : List (Nat × Nat × Nat) → WindowState × List Event
  | [] => (s, [])
  | (m, wp, lp) :: rest =>
    ((runMessages env (MessageHandler env s m wp lp).state rest).1,
     (MessageHandler env s m wp lp).events ++
       (runMessages env (MessageHandler env s m wp lp).state rest).2)

/-- Legal-transition checker for the minimized flag: starting from flag `b`,
scan the events; `Event.onMinimize` is legal only when the flag is false and
flips it to true, `Event.onRestore` only when the flag is true and flips it to
false; other events leave the flag alone.  Returns `none` on an illegal call,
`some` of the final flag otherwise. -/
def altRun : Bool → List Event → Option Bool
  | b, [] => some b
  | b, Event.onMinimize :: rest => if b then none else altRun true rest
  | b, Event.onRestore :: rest => if b then altRun false rest else none
  | b, _ :: rest => altRun b rest

/-- Recognizes `Event.onResize` calls. -/
def isResizeEvent : Event → Bool
  | Event.onResize _ _ => true
  | _ => false

/-! ### Concrete instances used by the witnesses -/

/-- An environment: DPI 96, no child window, zero rectangle. -/
def env0 : Env :=
  { getDpiForWindow := 96, getWindowChild := none, dpiRect := ⟨0, 0, 0, 0⟩ }

/-- A freshly constructed instance with a window handle attached. -/
def state0 : WindowState :=
  { window := some 1, currentDpi := 96, inDpiChange := false, title := "", minimized := false }

/-- A not-yet-created instance: no handle, not registered. -/
def wndState0 : WndState :=
  { that := initialState, registered := false }

/-! ### Helper lemmas -/

/-- One `MessageHandler` dispatch only ever performs legal minimize/restore
transitions, and leaves the minimized flag agreeing with the transition
checker. -/
theorem altRun_messageHandler (env : Env) (s : WindowState) (m wp lp : Nat) :
    altRun s.minimized (MessageHandler env s m wp lp).events
      = some (MessageHandler env s m wp lp).state.minimized := by
  unfold MessageHandler HandleDpiChange
  rcases hc : env.getWindowChild with _ | c <;>
    rcases hmin : s.minimized <;>
      split_ifs <;> simp_all [altRun]

/-- `altRun` splits over list concatenation. -/
theorem altRun_append (b : Bool) (xs ys : List Event) :
    altRun b (xs ++ ys) = (altRun b xs).bind fun b2 => altRun b2 ys := by
  induction xs generalizing b with
  | nil => simp [altRun]
  | cons x rest ih => cases x <;> cases b <;> simp [altRun, ih]

/-! ### Claims -/

/-- Claim C1, counterexample.  The claim states that GetLogicalSize returns
floor-rounded (physical/s + 0.5) in each dimension.  At DPI 96 (scale s = 1)
and physical size (1, 1), the code returns width 1/1 + 0.5 = 1.5, while
floor(1/1 + 0.5) = 1, so the claim is false: the code performs no floor. -/
theorem C1_floor_counterexample :
    (GetLogicalSize 96 ⟨1, 1⟩).width ≠ ((⌊(1 : ℚ) / GetCurrentDpiScale 96 + 1 / 2⌋ : ℤ) : ℚ) := by
  norm_num [GetLogicalSize, GetCurrentDpiScale, USER_DEFAULT_SCREEN_DPI]

/-- Claim C1, amended.  For every physical size (cx, cy) and DPI, each
dimension of GetLogicalSize is exactly physical/s + 0.5 where s is the value
of GetCurrentDpiScale, with no floor rounding applied: the result is a
fractional (float-valued) size. -/
theorem C1_no_floor (dpi : Nat) (cx cy : Int) :
    GetLogicalSize dpi ⟨cx, cy⟩ =
      { width := (cx : ℚ) / GetCurrentDpiScale dpi + 1 / 2
        height := (cy : ℚ) / GetCurrentDpiScale dpi + 1 / 2 } := rfl

/-- Claim C2.  GetLogicalSize computes each logical dimension by the linear
formula logical = physical / scale + 0.5, where scale is the value returned
by GetCurrentDpiScale, namely the window's DPI divided by
USER_DEFAULT_SCREEN_DPI (= 96). -/
theorem C2_logical_size_formula (dpi : Nat) (p : SIZE) :
    GetCurrentDpiScale dpi = (dpi : ℚ) / (USER_DEFAULT_SCREEN_DPI : ℚ)
    ∧ (GetLogicalSize dpi p).width = (p.cx : ℚ) / ((dpi : ℚ) / (USER_DEFAULT_SCREEN_DPI : ℚ)) + 1 / 2
    ∧ (GetLogicalSize dpi p).height = (p.cy : ℚ) / ((dpi : ℚ) / (USER_DEFAULT_SCREEN_DPI : ℚ)) + 1 / 2 :=
  ⟨rfl, rfl, rfl⟩

/-- Claim C3.  On WM_SIZE with wparam SIZE_RESTORED or SIZE_MAXIMIZED,
MessageHandler calls OnResize exactly once, with width = LOWORD(lparam) and
height = HIWORD(lparam), whether or not the window was previously minimized;
on WM_SIZE with wparam SIZE_MINIMIZED it never calls OnResize. -/
theorem C3_resize_exactly_once (env : Env) (s : WindowState) (wparam lparam : Nat)
    (h : wparam = SIZE_RESTORED ∨ wparam = SIZE_MAXIMIZED) :
    (MessageHandler env s WM_SIZE wparam lparam).events.filter isResizeEvent
        = [Event.onResize (LOWORD lparam) (HIWORD lparam)]
    ∧ (MessageHandler env s WM_SIZE SIZE_MINIMIZED lparam).events.filter isResizeEvent = [] := by
  constructor
  · rcases h with h | h <;> subst h <;> rcases hmin : s.minimized <;>
      simp [MessageHandler, WM_SIZE, WM_DPICHANGED, WM_DESTROY, SIZE_RESTORED,
        SIZE_MAXIMIZED, SIZE_MINIMIZED, CM_UPDATE_TITLE, WM_USER, isResizeEvent, hmin]
  · rcases hmin : s.minimized <;>
      simp [MessageHandler, WM_SIZE, WM_DPICHANGED, WM_DESTROY, SIZE_RESTORED,
        SIZE_MAXIMIZED, SIZE_MINIMIZED, CM_UPDATE_TITLE, WM_USER, isResizeEvent, hmin]

/-- Witness for C3 at wparam = SIZE_RESTORED, lparam = 0. -/
theorem C3_resize_exactly_once_witness :
    (MessageHandler env0 state0 WM_SIZE SIZE_RESTORED 0).events.filter isResizeEvent
        = [Event.onResize (LOWORD 0) (HIWORD 0)]
    ∧ (MessageHandler env0 state0 WM_SIZE SIZE_MINIMIZED 0).events.filter isResizeEvent = [] :=
  C3_resize_exactly_once env0 state0 SIZE_RESTORED 0 (Or.inl rfl)

/-- Claim C4.  Over any sequence of messages, the minimize/restore hooks fire
only on transitions of the _minimized flag: scanning the emitted events with
the legal-transition checker from the initial flag never fails (OnMinimize
occurs only with the flag false and sets it true, OnRestore only with the
flag true and sets it false, so the two calls strictly alternate), and the
checker's final flag equals the final _minimized field. -/
theorem C4_minimize_restore_alternation (env : Env) (s : WindowState)
    (msgs : List (Nat × Nat × Nat)) :
    altRun s.minimized (runMessages env s msgs).2
      = some (runMessages env s msgs).1.minimized := by
  induction msgs generalizing s with
  | nil => simp [runMessages, altRun]
  | cons msg rest ih =>
    rcases msg with ⟨m, wp, lp⟩
    simp [runMessages, altRun_append, altRun_messageHandler, ih]

/-- Claim C5.  For every message other than WM_DPICHANGED and WM_DESTROY
(including WM_SIZE, CM_UPDATE_TITLE, and all unrecognized messages, among
them WM_NCCREATE), MessageHandler returns DefWindowProc applied to the window
handle and the unmodified message, wparam and lparam; and WndProc falls back
to DefWindowProc for any dispatched message when no instance pointer is
registered for the window. -/
theorem C5_defwindowproc_fallback (env : Env) (s : WindowState) (m wp lp : Nat)
    (hm1 : m ≠ WM_DPICHANGED) (hm2 : m ≠ WM_DESTROY) :
    (MessageHandler env s m wp lp).ret = LRESULT.defWindowProc s.window m wp lp
    ∧ (∀ (st : WndState) (window m2 wp2 lp2 : Nat),
        window ≠ 0 → m2 ≠ WM_NCCREATE → st.registered = false →
        WndProc env st window m2 wp2 lp2 none
          = Except.ok (st, [], LRESULT.defWindowProc (some window) m2 wp2 lp2)) := by
  constructor
  · unfold MessageHandler
    split_ifs <;> simp_all
  · intro st window m2 wp2 lp2 hwin hm3 hreg
    unfold WndProc
    split_ifs <;> simp_all

/-- Witness for C5: the MessageHandler fallback at the unrecognized message
WM_NCCREATE, and the WndProc fallback at WM_SIZE on window handle 1 with an
unregistered instance. -/
theorem C5_defwindowproc_fallback_witness :
    (MessageHandler env0 state0 WM_NCCREATE 0 0).ret
        = LRESULT.defWindowProc state0.window WM_NCCREATE 0 0
    ∧ WndProc env0 wndState0 1 WM_SIZE 0 0 none
        = Except.ok (wndState0, [], LRESULT.defWindowProc (some 1) WM_SIZE 0 0) :=
  ⟨(C5_defwindowproc_fallback env0 state0 WM_NCCREATE 0 0 (by decide) (by decide)).1,
   (C5_defwindowproc_fallback env0 state0 WM_NCCREATE 0 0 (by decide) (by decide)).2
     wndState0 1 WM_SIZE 0 0 (by decide) (by decide) rfl⟩

/-- Claim C6.  On WM_NCCREATE, WndProc asserts that lpCreateParams is
non-null and that the instance's window handle is not already set; only when
both assertions pass does it take ownership of the handle, register the
instance in the window's user data, enable non-client DPI scaling, and cache
the window's current DPI. -/
theorem C6_nccreate (env : Env) (st : WndState) (window wp lp : Nat) (hwin : window ≠ 0) :
    WndProc env st window WM_NCCREATE wp lp none = Except.error "WINRT_ASSERT that"
    ∧ (∀ h : Nat, st.that.window = some h →
        WndProc env st window WM_NCCREATE wp lp (some ())
          = Except.error "WINRT_ASSERT not that window")
    ∧ (st.that.window = none →
        WndProc env st window WM_NCCREATE wp lp (some ())
          = Except.ok
              ({ that := { st.that with
                             window := some window,
                             currentDpi := env.getDpiForWindow },
                 registered := true },
               [Event.enableNonClientDpiScaling window],
               LRESULT.defWindowProc (some window) WM_NCCREATE wp lp)) := by
  refine ⟨?_, fun h hw => ?_, fun hw => ?_⟩ <;>
    · unfold WndProc
      split_ifs <;> simp_all

/-- Witness for C6 at window handle 1 on a not-yet-created instance: a null
lpCreateParams trips the first assertion, and a null instance handle lets
creation succeed. -/
theorem C6_nccreate_witness :
    WndProc env0 wndState0 1 WM_NCCREATE 0 0 none = Except.error "WINRT_ASSERT that"
    ∧ WndProc env0 wndState0 1 WM_NCCREATE 0 0 (some ())
        = Except.ok
            ({ that := { wndState0.that with
                           window := some 1,
                           currentDpi := env0.getDpiForWindow },
               registered := true },
             [Event.enableNonClientDpiScaling 1],
             LRESULT.defWindowProc (some 1) WM_NCCREATE 0 0) :=
  ⟨(C6_nccreate env0 wndState0 1 0 0 (by decide)).1,
   (C6_nccreate env0 wndState0 1 0 0 (by decide)).2.2 rfl⟩

/-- Claim C7.  On WM_DESTROY, MessageHandler calls PostQuitMessage with exit
code 0 and returns 0, without invoking DefWindowProc (the result is the
concrete value 0, not a DefWindowProc fallback) and without modifying any of
the wrapper's fields. -/
theorem C7_destroy_quits (env : Env) (s : WindowState) (wp lp : Nat) :
    MessageHandler env s WM_DESTROY wp lp =
      { state := s, events := [Event.postQuitMessage 0], ret := LRESULT.val 0 } := rfl

/-- Claim C8.  UpdateTitle(t) sets the cached _title field to t, modifies no
other field, and posts CM_UPDATE_TITLE to the window's message loop; when
MessageHandler later receives CM_UPDATE_TITLE it sets the native window text
to the cached _title (and leaves the fields unchanged). -/
theorem C8_update_title (env : Env) (s : WindowState) (t : String) (wp lp : Nat) :
    UpdateTitle s t
        = ({ s with title := t }, [Event.postMessage s.window CM_UPDATE_TITLE 0 0])
    ∧ MessageHandler env s CM_UPDATE_TITLE wp lp
        = { state := s, events := [Event.setWindowText s.window s.title],
            ret := LRESULT.defWindowProc s.window CM_UPDATE_TITLE wp lp } :=
  ⟨rfl, rfl⟩

/-- Claim C9.  When the window has no child window, HandleDpiChange neither
repositions the window (no events are emitted) nor updates _currentDpi: every
field other than the transient _inDpiChange flag is unchanged (and
_inDpiChange ends false), and the handler still returns 0; MessageHandler
dispatches WM_DPICHANGED to HandleDpiChange on the window's handle. -/
theorem C9_no_child_ignored (env : Env) (s : WindowState) (hWnd : Option Nat)
    (wp lp : Nat) (h : env.getWindowChild = none) :
    HandleDpiChange env s hWnd wp
        = { state := { s with inDpiChange := false }, events := [], ret := LRESULT.val 0 }
    ∧ MessageHandler env s WM_DPICHANGED wp lp = HandleDpiChange env s s.window wp :=
  ⟨by simp [HandleDpiChange, h], rfl⟩

/-- Witness for C9 in the child-less environment env0. -/
theorem C9_no_child_ignored_witness :
    HandleDpiChange env0 state0 (some 1) 0
        = { state := { state0 with inDpiChange := false }, events := [],
            ret := LRESULT.val 0 }
    ∧ MessageHandler env0 state0 WM_DPICHANGED 0 0
        = HandleDpiChange env0 state0 state0.window 0 :=
  C9_no_child_ignored env0 state0 (some 1) 0 0 rfl

/-- Claim C10.  HandleDpiChange always returns 0 and always leaves
_inDpiChange false (it is set on entry and cleared before returning), so the
invariant that _inDpiChange is false outside the handler is preserved by
every complete MessageHandler dispatch and by UpdateTitle. -/
theorem C10_in_dpi_change_flag (env : Env) (s : WindowState) (hWnd : Option Nat)
    (m wp lp : Nat) (t : String) :
    (HandleDpiChange env s hWnd wp).ret = LRESULT.val 0
    ∧ (HandleDpiChange env s hWnd wp).state.inDpiChange = false
    ∧ (s.inDpiChange = false → (MessageHandler env s m wp lp).state.inDpiChange = false)
    ∧ (UpdateTitle s t).1.inDpiChange = s.inDpiChange := by
  refine ⟨?_, ?_, fun hs => ?_, rfl⟩
  · unfold HandleDpiChange
    rcases env.getWindowChild with _ | c <;> rfl
  · unfold HandleDpiChange
    rcases env.getWindowChild with _ | c <;> rfl
  · unfold MessageHandler HandleDpiChange
    rcases hc : env.getWindowChild with _ | c <;> split_ifs <;> simp_all

/-- Witness for C10: a complete WM_SIZE dispatch from a state satisfying the
invariant leaves _inDpiChange false. -/
theorem C10_in_dpi_change_flag_witness :
    (MessageHandler env0 state0 WM_SIZE 0 0).state.inDpiChange = false :=
  (C10_in_dpi_change_flag env0 state0 none WM_SIZE 0 0 "").2.2.1 rfl

end BaseWindow
